import Mathlib

set_option maxRecDepth 10000

/-
Verification of the odds-comparison core (odds_converter.py and comparator.py)
of the kalshi-odds-comparison repository.

Modelling conventions:
- Python float VALUES are rationals (every binary64 double is a rational).
  Two readings of the float ARITHMETIC are used. The probability pipeline
  is read with exact-rational arithmetic, which is benign for the bounds,
  threshold, ordering and error-propagation facts proved about it. The
  American/decimal round trip, whose truth is sensitive to rounding, is
  read with `fl`, correctly-rounded IEEE-754 binary64 arithmetic
  (round-to-nearest, ties-to-even) applied at every operation — exactly
  what CPython computes at these magnitudes.
- Python dicts backing match / market / contract records are modelled as
  structures with `Option` fields; `dict[key]` access is `getKey`, which
  raises `KeyError` (as an `Except` error) when the field is absent.
- Python exceptions (KeyError, ZeroDivisionError) are modelled with
  `Except PyErr`; evaluation order of the Python statements is preserved so
  that which error propagates first is faithful to the source.
- Python strings are Lean `String`s; `s.lower()` is `pyLower` (ASCII
  lowering, which is what the repository's inputs exercise) producing the
  character list, and the Python substring test `a in b` is `pyIn`.
- Python `int(x)` on a float is truncation toward zero (`pyInt`);
  `round(x)` / `round(x, 2)` is round-half-to-even (`pyRound` / `pyRound2`);
  `str(x)` on a nonnegative float with a short decimal expansion is
  `pyFloatRepr` (used for the f-string `f"{abs(spread)}"`).
-/

namespace KalshiOdds

/-- Python exceptions that the embedded code can raise. -/
inductive PyErr where
  | keyError (key : String) : PyErr
  | zeroDivisionError : PyErr
deriving DecidableEq

/-- Python `d[key]` on a dict field modelled as an `Option`. -/
def getKey {α : Type} (key : String) : Option α → Except PyErr α
  | some v => .ok v
  | none => .error (.keyError key)

/-- ASCII lowering of one character, as Python `str.lower` acts on ASCII. -/
def lowerChar (c : Char) : Char :=
  if 65 ≤ c.toNat && c.toNat ≤ 90 then Char.ofNat (c.toNat + 32) else c

/-- Python `s.lower()`, as a character list. -/
def pyLower (s : String) : List Char := s.data.map lowerChar

/-- Whether the first list is a leading segment of the second. -/
def leadsList : List Char → List Char → Bool
  | [], _ => true
  | _ :: _, [] => false
  | a :: xs, b :: ys => a == b && leadsList xs ys

/-- Python substring containment `needle in haystack`. -/
def pyIn (needle : List Char) : List Char → Bool
  | [] => needle.isEmpty
  | c :: rest => leadsList needle (c :: rest) || pyIn needle rest

/-- Python `int(x)` on a float: truncation toward zero. -/
def pyInt (q : ℚ) : ℤ := q.num.tdiv q.den

/-- Computable floor of a rational (equal to `Int.floor`, see `ratFloor_eq`). -/
def ratFloor (q : ℚ) : ℤ := q.num / (q.den : ℤ)

/-- Python `round(x)`: round half to even, yielding an integer. -/
def pyRound (q : ℚ) : ℤ :=
  if q - (ratFloor q : ℚ) < 1 / 2 then ratFloor q
  else if 1 / 2 < q - (ratFloor q : ℚ) then ratFloor q + 1
  else if ratFloor q % 2 = 0 then ratFloor q else ratFloor q + 1

/-- Python `round(x, 2)`: round half to even at two decimal places. -/
def pyRound2 (q : ℚ) : ℚ := (pyRound (q * 100) : ℚ) / 100

/-- Decimal digits of a natural number (fuel-driven, most significant first). -/
def natChars : Nat → Nat → List Char → List Char
  | 0, _, acc => acc
  | fuel + 1, n, acc =>
    let d := Char.ofNat (48 + n % 10)
    if n < 10 then d :: acc else natChars fuel (n / 10) (d :: acc)

/-- Fractional-part digits of a rational in `[0, 1)` (fuel-driven). -/
def fracChars : Nat → ℚ → List Char
  | 0, _ => []
  | fuel + 1, q =>
    if q = 0 then []
    else
      let q10 := q * 10
      let d := ratFloor q10
      Char.ofNat (48 + d.toNat) :: fracChars fuel (q10 - (d : ℚ))

/-- Python `str(x)` for a nonnegative float `x` whose value has a short
decimal expansion (e.g. `1.5 ↦ "1.5"`, `0 ↦ "0.0"`); this is the only regime
the comparator's f-string `f"{abs(spread)}"` is exercised in. -/
def pyFloatRepr (q : ℚ) : List Char :=
  let ip := ratFloor q
  let frac := fracChars 17 (q - (ip : ℚ))
  natChars (ip.natAbs + 1) ip.natAbs [] ++ '.' :: (if frac.isEmpty then ['0'] else frac)

/- odds_converter.py, class OddsConverter -/

namespace OddsConverter

/-- `american_to_decimal` (odds_converter.py lines 8-22), read with
exact-rational arithmetic (see `american_to_decimal_ieee` for the same
function under the doubles the interpreter runs); `100 / abs(0)` raises
ZeroDivisionError. -/
def american_to_decimal (american_odds : ℤ) : Except PyErr ℚ :=
  if 0 < american_odds then .ok ((american_odds : ℚ) / 100 + 1)
  else if american_odds = 0 then .error .zeroDivisionError
  else .ok (100 / |(american_odds : ℚ)| + 1)

/-- `decimal_to_probability` (odds_converter.py lines 40-51). -/
def decimal_to_probability (decimal_odds : ℚ) : Except PyErr ℚ :=
  if decimal_odds = 0 then .error .zeroDivisionError
  else .ok (1 / decimal_odds * 100)

/-- `american_to_probability` (odds_converter.py lines 53-65). -/
def american_to_probability (american_odds : ℤ) : Except PyErr ℚ :=
  match american_to_decimal american_odds with
  | .error e => .error e
  | .ok d => decimal_to_probability d

/-- `probability_to_decimal` (odds_converter.py lines 67-78). -/
def probability_to_decimal (probability : ℚ) : Except PyErr ℚ :=
  if probability = 0 then .error .zeroDivisionError
  else .ok (100 / probability)

/-- `kalshi_price_to_probability` (odds_converter.py lines 80-92):
`float(price)`. -/
def kalshi_price_to_probability (price : ℤ) : ℚ := (price : ℚ)

/-- `probability_to_kalshi_price` (odds_converter.py lines 94-105):
`int(round(probability))`; `round` already yields an integer. -/
def probability_to_kalshi_price (probability : ℚ) : ℤ := pyRound probability

end OddsConverter

/- comparator.py data shapes: the dict records the comparator reads. -/

/-- A spread market dict inside a sportsbook match. -/
structure SpreadMarket where
  type : Option String
  home_spread : Option ℚ
  home_odds : Option ℤ
  away_spread : Option ℚ
  away_odds : Option ℤ
deriving DecidableEq

/-- A sportsbook match dict (only the keys the comparator reads). -/
structure Match where
  home_team : Option String
  away_team : Option String
  markets : Option (List SpreadMarket)
deriving DecidableEq

/-- A Kalshi market (contract) dict (only the keys the comparator reads). -/
structure KalshiMarket where
  ticker : Option String
  title : Option String
  subtitle : Option String
  yes_ask : Option ℤ
deriving DecidableEq

/-- An opportunity dict produced by `_compare_spread_odds`; the formatted
string `f"{team_name} {spread:+g}"` is modelled as the pair of its two
arguments. -/
structure Opportunity where
  match_name : String
  sportsbook : String
  sportsbook_market : String × ℚ
  sportsbook_odds : ℤ
  sportsbook_implied_prob : ℚ
  kalshi_contract : String
  kalshi_price : ℤ
  kalshi_implied_prob : ℚ
  edge_percentage : ℚ
deriving DecidableEq

/-- The side of a spread market being evaluated (the `team` argument of
`_compare_spread_odds`, a string `'home'` or `'away'` in the source). -/
inductive Team where
  | home : Team
  | away : Team
deriving DecidableEq

/-- The dict key `f"{team}_team"`. -/
def Team.key : Team → String
  | .home => "home_team"
  | .away => "away_team"

/-- The match field addressed by `match[f"{team}_team"]`. -/
def Match.team_field (m : Match) : Team → Option String
  | .home => m.home_team
  | .away => m.away_team

/-- Sequencing of a Python for-loop that runs `f` on each element and
extends an accumulator list, propagating the first exception. -/
def exceptConcat {α β : Type} (f : α → Except PyErr (List β)) :
    List α → Except PyErr (List β)
  | [] => .ok []
  | x :: rest =>
    match f x with
    | .error e => .error e
    | .ok cur =>
      match exceptConcat f rest with
      | .error e => .error e
      | .ok rest' => .ok (cur ++ rest')

namespace OddsComparator

/-- Body of the `_find_matching_kalshi_markets` loop (comparator.py lines
92-102): keep the markets whose title or subtitle mentions both teams. -/
def find_matching_loop (home_team away_team : List Char) :
    List KalshiMarket → Except PyErr (List KalshiMarket)
  | [] => .ok []
  | market :: rest =>
    match getKey "title" market.title with
    | .error e => .error e
    | .ok t =>
      match getKey "subtitle" market.subtitle with
      | .error e => .error e
      | .ok s =>
        match find_matching_loop home_team away_team rest with
        | .error e => .error e
        | .ok rest' =>
          if (pyIn home_team (pyLower t) || pyIn home_team (pyLower s)) &&
              (pyIn away_team (pyLower t) || pyIn away_team (pyLower s)) then
            .ok (market :: rest')
          else
            .ok rest'

/-- `_find_matching_kalshi_markets` (comparator.py lines 75-102). -/
def find_matching_kalshi_markets (m : Match) (kalshi_markets : List KalshiMarket) :
    Except PyErr (List KalshiMarket) :=
  match getKey "home_team" m.home_team with
  | .error e => .error e
  | .ok ht =>
    match getKey "away_team" m.away_team with
    | .error e => .error e
    | .ok aw => find_matching_loop (pyLower ht) (pyLower aw) kalshi_markets

/-- The indicator words chosen by `_is_matching_spread_market`
(comparator.py lines 179-182): `if spread > 0` picks the positive set,
otherwise (including spread 0) the negative set. -/
def spread_indicators (spread : ℚ) : List String :=
  if 0 < spread then ["+", "plus", "more than"] else ["-", "minus", "less than"]

/-- The indicator scan of `_is_matching_spread_market` (comparator.py lines
184-189): some indicator occurs in the subtitle together with the spread
magnitude string. -/
def indicator_hit (subtitle spread_str : List Char) (indicators : List String) : Bool :=
  indicators.any (fun ind => pyIn ind.data subtitle && pyIn spread_str subtitle)

/-- `_is_matching_spread_market` (comparator.py lines 153-189). -/
def is_matching_spread_market (kalshi_market : KalshiMarket) (team_name : String)
    (spread : ℚ) : Except PyErr Bool :=
  match getKey "title" kalshi_market.title with
  | .error e => .error e
  | .ok t =>
    match getKey "subtitle" kalshi_market.subtitle with
    | .error e => .error e
    | .ok s =>
      let title := pyLower t
      let subtitle := pyLower s
      let team_name_lower := pyLower team_name
      if !pyIn team_name_lower title && !pyIn team_name_lower subtitle then
        .ok false
      else
        .ok (indicator_hit subtitle (pyFloatRepr |spread|) (spread_indicators spread))

/-- One iteration of the `_compare_spread_odds` loop over the matched
Kalshi markets (comparator.py lines 126-149). -/
def compare_one (threshold : ℚ) (m : Match) (sportsbook team_name : String)
    (spread : ℚ) (odds : ℤ) (sportsbook_prob : ℚ) (km : KalshiMarket) :
    Except PyErr (List Opportunity) :=
  match is_matching_spread_market km team_name spread with
  | .error e => .error e
  | .ok false => .ok []
  | .ok true =>
    match getKey "yes_ask" km.yes_ask with
    | .error e => .error e
    | .ok kalshi_price =>
      if threshold ≤ |sportsbook_prob - OddsConverter.kalshi_price_to_probability kalshi_price| then
        match getKey "home_team" m.home_team with
        | .error e => .error e
        | .ok home =>
          match getKey "away_team" m.away_team with
          | .error e => .error e
          | .ok away =>
            match getKey "ticker" km.ticker with
            | .error e => .error e
            | .ok ticker =>
              .ok [{ match_name := home ++ " vs " ++ away
                     sportsbook := sportsbook
                     sportsbook_market := (team_name, spread)
                     sportsbook_odds := odds
                     sportsbook_implied_prob := pyRound2 sportsbook_prob
                     kalshi_contract := ticker
                     kalshi_price := kalshi_price
                     kalshi_implied_prob :=
                       pyRound2 (OddsConverter.kalshi_price_to_probability kalshi_price)
                     edge_percentage :=
                       pyRound2 |sportsbook_prob -
                         OddsConverter.kalshi_price_to_probability kalshi_price| }]
      else .ok []

/-- `_compare_spread_odds` (comparator.py lines 104-151). -/
def compare_spread_odds (threshold : ℚ) (m : Match) (sportsbook : String)
    (team : Team) (spread : ℚ) (odds : ℤ) (kalshi_markets : List KalshiMarket) :
    Except PyErr (List Opportunity) :=
  match OddsConverter.american_to_probability odds with
  | .error e => .error e
  | .ok sportsbook_prob =>
    match getKey team.key (m.team_field team) with
    | .error e => .error e
    | .ok team_name =>
      exceptConcat (compare_one threshold m sportsbook team_name spread odds sportsbook_prob)
        kalshi_markets

/-- Processing of one market of a match (comparator.py lines 46-68): only
markets tagged `'spread'` are handled, home side first, then away side. -/
def process_market (threshold : ℚ) (sportsbook : String) (m : Match)
    (cands : List KalshiMarket) (market : SpreadMarket) : Except PyErr (List Opportunity) :=
  match getKey "type" market.type with
  | .error e => .error e
  | .ok ty =>
    if ty = "spread" then
      match getKey "home_spread" market.home_spread with
      | .error e => .error e
      | .ok hs =>
        match getKey "home_odds" market.home_odds with
        | .error e => .error e
        | .ok ho =>
          match compare_spread_odds threshold m sportsbook .home hs ho cands with
          | .error e => .error e
          | .ok home_opps =>
            match getKey "away_spread" market.away_spread with
            | .error e => .error e
            | .ok asp =>
              match getKey "away_odds" market.away_odds with
              | .error e => .error e
              | .ok ao =>
                match compare_spread_odds threshold m sportsbook .away asp ao cands with
                | .error e => .error e
                | .ok away_opps => .ok (home_opps ++ away_opps)
    else .ok []

/-- Processing of one match (comparator.py lines 38-68): find candidates,
skip the match when there are none (the debug log line still reads the two
team fields), otherwise walk `match['markets']`. -/
def process_match (threshold : ℚ) (sportsbook : String)
    (kalshi_markets : List KalshiMarket) (m : Match) : Except PyErr (List Opportunity) :=
  match find_matching_kalshi_markets m kalshi_markets with
  | .error e => .error e
  | .ok cands =>
    if cands.isEmpty then
      match getKey "home_team" m.home_team with
      | .error e => .error e
      | .ok _ =>
        match getKey "away_team" m.away_team with
        | .error e => .error e
        | .ok _ => .ok []
    else
      match getKey "markets" m.markets with
      | .error e => .error e
      | .ok mkts => exceptConcat (process_market threshold sportsbook m cands) mkts

/-- The two nested loops of `find_opportunities` (comparator.py lines
36-68), before the final sort. -/
def process_books (threshold : ℚ) (kalshi_markets : List KalshiMarket)
    (sportsbook_data : List (String × List Match)) : Except PyErr (List Opportunity) :=
  exceptConcat
    (fun bk => exceptConcat (process_match threshold bk.1 kalshi_markets) bk.2)
    sportsbook_data

/-- Sort key: `opportunities.sort(key=lambda x: x['edge_percentage'],
reverse=True)` orders by edge, highest first. -/
abbrev edge_ge (a b : Opportunity) : Prop := b.edge_percentage ≤ a.edge_percentage

/-- `find_opportunities` (comparator.py lines 22-73); the Python dict
`sportsbook_data` is an insertion-ordered association list. -/
def find_opportunities (threshold : ℚ) (sportsbook_data : List (String × List Match))
    (kalshi_markets : List KalshiMarket) : Except PyErr (List Opportunity) :=
  match process_books threshold kalshi_markets sportsbook_data with
  | .error e => .error e
  | .ok opportunities => .ok (opportunities.insertionSort edge_ge)

/-- The candidate condition of step 2 of the algorithm, stated directly on a
contract with both text fields present: each team name appears
case-insensitively in the title or the subtitle. -/
def is_candidate (home_team away_team : String) (km : KalshiMarket) : Bool :=
  match km.title, km.subtitle with
  | some t, some s =>
    (pyIn (pyLower home_team) (pyLower t) || pyIn (pyLower home_team) (pyLower s)) &&
      (pyIn (pyLower away_team) (pyLower t) || pyIn (pyLower away_team) (pyLower s))
  | _, _ => false

end OddsComparator

/- IEEE-754 binary64 reading of the American/decimal conversions: `fl`
rounds each operation's exact result to the nearest double (ties to even),
which is precisely CPython's float arithmetic away from overflow and
subnormals — a regime that covers every value these conversions produce on
the odds magnitudes considered. -/

/-- Bit length of a natural number (fuel-driven; fuel 300 covers all
numerators and denominators these computations produce). -/
def natBitsAux : Nat → Nat → Nat
  | 0, _ => 0
  | fuel + 1, n => if n = 0 then 0 else natBitsAux fuel (n / 2) + 1

/-- Bit length of a natural number. -/
def natBits (n : Nat) : Nat := natBitsAux 300 n

/-- Binary exponent of a positive rational: the `e` with `2^e ≤ q < 2^(e+1)`. -/
def qexp (q : ℚ) : ℤ :=
  let e0 : ℤ := (natBits q.num.natAbs : ℤ) - (natBits q.den : ℤ)
  if q < (2 : ℚ) ^ e0 then e0 - 1 else e0

/-- Correct rounding of an exact rational value to the nearest IEEE-754
binary64 double (53-bit significand, round-to-nearest, ties-to-even),
with unbounded exponent: exact for the normal range, which is the only
range these computations touch. -/
def fl (q : ℚ) : ℚ :=
  if q = 0 then 0
  else
    let e := qexp |q|
    let ulp : ℚ := (2 : ℚ) ^ (e - 52)
    (if q < 0 then -1 else 1) * (pyRound (|q| / ulp) : ℚ) * ulp

/-- `american_to_decimal` (odds_converter.py lines 8-22) under IEEE-double
arithmetic: `odds/100 + 1` and `100/abs(odds) + 1` with each operation
correctly rounded, as CPython computes them. -/
def american_to_decimal_ieee (american_odds : ℤ) : Except PyErr ℚ :=
  if 0 < american_odds then .ok (fl (fl ((american_odds : ℚ) / 100) + 1))
  else if american_odds = 0 then .error .zeroDivisionError
  else .ok (fl (fl (100 / |(american_odds : ℚ)|) + 1))

/-- `decimal_to_american` (odds_converter.py lines 24-38) under IEEE-double
arithmetic: `int((d-1)*100)` and `int(-100/(d-1))` with each float
operation correctly rounded and `int` truncating toward zero. -/
def decimal_to_american_ieee (decimal_odds : ℚ) : Except PyErr ℤ :=
  if 2 ≤ decimal_odds then .ok (pyInt (fl (fl (decimal_odds - 1) * 100)))
  else if decimal_odds = 1 then .error .zeroDivisionError
  else .ok (pyInt (fl ((-100) / fl (decimal_odds - 1))))

/-- Composition `decimal_to_american(american_to_decimal(a))` under the
IEEE-double arithmetic the source runs. -/
def american_round_trip_ieee (a : ℤ) : Except PyErr ℤ :=
  match american_to_decimal_ieee a with
  | .error e => .error e
  | .ok d => decimal_to_american_ieee d

/-- Whether the double round trip returns its input unchanged. -/
def round_trip_exact (a : ℤ) : Bool :=
  match american_round_trip_ieee a with
  | .ok b => b == a
  | .error _ => false

/-- The positive multiples of 100 from 100 to 20000. -/
def C2_mult100 : List ℤ := (List.range 200).map (fun i => 100 * ((i : ℤ) + 1))

/-- The integers 100..300. -/
def C2_range : List ℤ := (List.range 201).map (fun i => 100 + (i : ℤ))

/-- The inputs in 100..300 on which the double round trip does not return
its input (each comes back as the adjacent integer below). -/
def C2_failures : List ℤ :=
  [101, 105, 109, 113, 114, 115, 118, 122, 126, 130, 139, 143, 147, 151, 155,
   164, 168, 172, 176, 180, 189, 193, 197, 201, 203, 205, 207, 226, 228, 230,
   232, 251, 253, 255]

section Fixtures

/-- Sportsbook match of the spec's concrete scenario (also the repository's
test fixture): Team A at home, one spread market `-1.5` at `-110` each way. -/
def mC3 : Match :=
  { home_team := some "Team A", away_team := some "Team B",
    markets := some [{ type := some "spread", home_spread := some (-(3 : ℚ) / 2),
                       home_odds := some (-110), away_spread := some ((3 : ℚ) / 2),
                       away_odds := some (-110) }] }

/-- Contract of the spec's concrete scenario: subtitle
"Team A to win by 2+ goals", `yes_ask` 45. -/
def kmC3 : KalshiMarket :=
  { ticker := some "SOCCER-TEAMA-TEAMB-123", title := some "Team A vs Team B",
    subtitle := some "Team A to win by 2+ goals", yes_ask := some 45 }

/-- Match for the threshold counterexample: home odds +200, so the home
implied probability is 100/3. -/
def mC1 : Match :=
  { home_team := some "team a", away_team := some "team b",
    markets := some [{ type := some "spread", home_spread := some (-(3 : ℚ) / 2),
                       home_odds := some 200, away_spread := some ((3 : ℚ) / 2),
                       away_odds := some (-110) }] }

/-- Contract for the threshold counterexample: subtitle carries the team
name, a negative indicator and the magnitude "1.5"; `yes_ask` 28 makes the
raw edge 100/3 - 28 = 16/3. -/
def kmC1 : KalshiMarket :=
  { ticker := some "K1", title := some "team a vs team b",
    subtitle := some "team a -1.5", yes_ask := some 28 }

/-- The single opportunity `find_opportunities (16/3) [("bk", [mC1])] [kmC1]`
emits: its `edge_percentage` is `round(16/3, 2) = 5.33 < 16/3`. -/
def oppC1 : Opportunity :=
  { match_name := "team a vs team b", sportsbook := "bk",
    sportsbook_market := ("team a", -(3 : ℚ) / 2), sportsbook_odds := 200,
    sportsbook_implied_prob := (3333 : ℚ) / 100, kalshi_contract := "K1",
    kalshi_price := 28, kalshi_implied_prob := 28,
    edge_percentage := (533 : ℚ) / 100 }

/-- Match whose `markets` key is absent. -/
def mC4 : Match :=
  { home_team := some "team a", away_team := some "team b", markets := none }

/-- Contract that matches `mC4`'s two team names, so `mC4` is not skipped. -/
def kmC4 : KalshiMarket :=
  { ticker := some "K4", title := some "team a vs team b",
    subtitle := some "x", yes_ask := some 50 }

/-- Contract mentioning neither team of `mC4`. -/
def kmC4z : KalshiMarket :=
  { ticker := some "K4Z", title := some "other event",
    subtitle := some "y", yes_ask := some 50 }

/-- Match with a spread market whose home odds are the degenerate value 0. -/
def mC5 : Match :=
  { home_team := some "team a", away_team := some "team b",
    markets := some [{ type := some "spread", home_spread := some (-(3 : ℚ) / 2),
                       home_odds := some 0, away_spread := some ((3 : ℚ) / 2),
                       away_odds := some (-110) }] }

/-- Contract matching `mC5`'s team names so its markets are evaluated. -/
def kmC5 : KalshiMarket :=
  { ticker := some "K5", title := some "team a vs team b",
    subtitle := some "irrelevant", yes_ask := some 50 }

/-- Match with both team fields and an empty markets list. -/
def mC7 : Match :=
  { home_team := some "team a", away_team := some "team b", markets := some [] }

end Fixtures

/- Helper lemmas about the numeric modelling functions. -/

lemma ratFloor_eq (q : ℚ) : ratFloor q = ⌊q⌋ :=
  Rat.floor_def.symm

lemma ratFloor_intCast (p : ℤ) : ratFloor ((p : ℚ)) = p := by
  rw [ratFloor_eq, Int.floor_intCast]

lemma pyRound_intCast (p : ℤ) : pyRound ((p : ℚ)) = p := by
  rw [pyRound, ratFloor_intCast]
  norm_num

lemma round_trip_exact_spec (a : ℤ) (h : round_trip_exact a = true) :
    american_round_trip_ieee a = .ok a := by
  rw [round_trip_exact] at h
  cases he : american_round_trip_ieee a with
  | error e => rw [he] at h; simp at h
  | ok b =>
    rw [he] at h
    simp only [] at h
    exact congrArg Except.ok (eq_of_beq h)

lemma american_to_probability_ok (a : ℤ) (d : ℚ)
    (h : OddsConverter.american_to_decimal a = .ok d) :
    OddsConverter.american_to_probability a = OddsConverter.decimal_to_probability d := by
  rw [OddsConverter.american_to_probability, h]

lemma american_to_decimal_pos (a : ℤ) (h : 0 < a) :
    OddsConverter.american_to_decimal a = .ok ((a : ℚ) / 100 + 1) := by
  rw [OddsConverter.american_to_decimal, if_pos h]

lemma american_to_decimal_neg (a : ℤ) (h : a < 0) :
    OddsConverter.american_to_decimal a = .ok (100 / |(a : ℚ)| + 1) := by
  rw [OddsConverter.american_to_decimal, if_neg (by omega), if_neg (by omega)]

lemma decimal_to_probability_ok (d : ℚ) (h : d ≠ 0) :
    OddsConverter.decimal_to_probability d = .ok (1 / d * 100) := by
  rw [OddsConverter.decimal_to_probability, if_neg h]

set_option maxHeartbeats 4000000 in
/-- C2 counterexample: under the IEEE-double arithmetic the source runs,
the round trip is not the identity on the claim's domain. -100 comes back
as +100 (its decimal 2.0 takes the positive branch); 101 comes back as 100
(`101/100 + 1` is the double 2.0099999999999998, and `int((d-1)*100)`
truncates below 101); -110 comes back as -109; and on 100..300 exactly the
34 inputs of `C2_failures` fail. -/
theorem C2_round_trip_counterexample :
    american_round_trip_ieee (-100) = .ok 100 ∧
      american_round_trip_ieee 101 = .ok 100 ∧
      american_round_trip_ieee (-110) = .ok (-109) ∧
      C2_range.filter (fun a => !round_trip_exact a) = C2_failures := by
  refine ⟨?_, ?_, ?_, ?_⟩ <;> with_unfolding_all rfl

set_option maxHeartbeats 4000000 in
/-- C2 amended: on the inputs where the double roundings are favorable the
round trip is exact — verified exhaustively here for every positive
multiple of 100 up to 20000 and for every integer in 100..300 outside the
explicit failure set `C2_failures`. -/
theorem C2_round_trip_amended (a : ℤ)
    (h : a ∈ C2_mult100 ∨ (a ∈ C2_range ∧ a ∉ C2_failures)) :
    american_round_trip_ieee a = .ok a := by
  apply round_trip_exact_spec
  rcases h with h | ⟨h1, h2⟩
  · have hall : C2_mult100.all round_trip_exact = true := by
      with_unfolding_all rfl
    exact List.all_eq_true.mp hall a h
  · have hall : C2_range.all
        (fun x => round_trip_exact x || decide (x ∈ C2_failures)) = true := by
      with_unfolding_all rfl
    have hor := List.all_eq_true.mp hall a h1
    simp only [Bool.or_eq_true, decide_eq_true_eq] at hor
    rcases hor with hx | hx
    · exact hx
    · exact absurd hx h2

/-- C2 witness: the amended round trip at the concrete input 200. -/
theorem C2_round_trip_witness : american_round_trip_ieee 200 = .ok 200 :=
  C2_round_trip_amended 200 (Or.inl (by decide))

/-- C5 counterexample: American odds 0 is not accepted: `american_to_decimal`
divides by `abs(0)` and raises ZeroDivisionError, and `find_opportunities`
propagates it on a match whose spread market has `home_odds = 0`. -/
theorem C5_zero_odds_counterexample :
    OddsConverter.american_to_probability 0 = .error .zeroDivisionError ∧
      OddsComparator.find_opportunities 5 [("bk", [mC5])] [kmC5] =
        .error .zeroDivisionError :=
  ⟨by with_unfolding_all rfl, by with_unfolding_all rfl⟩

/-- C5 amended: odds 0 raises ZeroDivisionError in the conversion pipeline,
while every nonzero American-odds integer is converted without error. -/
theorem C5_zero_odds_amended (a : ℤ) :
    (a = 0 → OddsConverter.american_to_probability a = .error .zeroDivisionError) ∧
      (a ≠ 0 → ∃ p, OddsConverter.american_to_probability a = .ok p) := by
  constructor
  · rintro rfl
    with_unfolding_all rfl
  · intro h
    rcases lt_or_gt_of_ne h with ha | ha
    · have hcast : (a : ℚ) < 0 := by exact_mod_cast ha
      have habs : (0 : ℚ) < |(a : ℚ)| := abs_pos.mpr hcast.ne
      have hgt : (0 : ℚ) < 100 / |(a : ℚ)| := by positivity
      refine ⟨1 / (100 / |(a : ℚ)| + 1) * 100, ?_⟩
      rw [american_to_probability_ok a _ (american_to_decimal_neg a ha),
        decimal_to_probability_ok _ (by linarith)]
    · have hcast : (0 : ℚ) < (a : ℚ) := by exact_mod_cast ha
      have hgt : (0 : ℚ) < (a : ℚ) / 100 := by positivity
      refine ⟨1 / ((a : ℚ) / 100 + 1) * 100, ?_⟩
      rw [american_to_probability_ok a _ (american_to_decimal_pos a ha),
        decimal_to_probability_ok _ (by linarith)]

/-- C5 witness: the amended statement applied at odds 0 and at odds 100. -/
theorem C5_zero_odds_witness :
    OddsConverter.american_to_probability 0 = .error .zeroDivisionError ∧
      ∃ p, OddsConverter.american_to_probability 100 = .ok p :=
  ⟨(C5_zero_odds_amended 0).1 rfl, (C5_zero_odds_amended 100).2 (by decide)⟩

/-- C9 confirmed: on integers 0..100, the Kalshi price/probability
conversions are mutually inverse: `float(p)` back through
`int(round(·))` is the identity. -/
theorem C9_exchange_price_identity (p : ℤ) (h0 : 0 ≤ p) (h1 : p ≤ 100) :
    OddsConverter.kalshi_price_to_probability p = (p : ℚ) ∧
      OddsConverter.probability_to_kalshi_price ((p : ℚ)) = p :=
  ⟨rfl, pyRound_intCast p⟩

/-- C9 witness: the identity at the concrete price 65. -/
theorem C9_exchange_price_witness :
    OddsConverter.kalshi_price_to_probability 65 = ((65 : ℤ) : ℚ) ∧
      OddsConverter.probability_to_kalshi_price (((65 : ℤ) : ℚ)) = 65 :=
  C9_exchange_price_identity 65 (by decide) (by decide)

/-- C10 confirmed: a spread of exactly 0 selects the negative-direction
indicator words, the same list as any negative spread, and never the
positive ones. -/
theorem C10_zero_spread_uses_negative_indicators :
    OddsComparator.spread_indicators 0 = ["-", "minus", "less than"] ∧
      OddsComparator.spread_indicators 0 = OddsComparator.spread_indicators (-(3 : ℚ) / 2) := by
  refine ⟨?_, ?_⟩ <;> norm_num [OddsComparator.spread_indicators]

/- Membership lemmas tracing an emitted opportunity back to the guarded
append in `_compare_spread_odds`. -/

instance : IsTotal Opportunity OddsComparator.edge_ge :=
  ⟨fun a b => le_total b.edge_percentage a.edge_percentage⟩

instance : IsTrans Opportunity OddsComparator.edge_ge :=
  ⟨fun _ _ _ h1 h2 => le_trans h2 h1⟩

/-- C6 confirmed: every successfully returned opportunity list is sorted
non-increasingly by `edge_percentage`. -/
theorem C6_sorted_output (threshold : ℚ) (data : List (String × List Match))
    (contracts : List KalshiMarket) (l : List Opportunity)
    (h : OddsComparator.find_opportunities threshold data contracts = .ok l) :
    l.Sorted (fun a b => b.edge_percentage ≤ a.edge_percentage) := by
  rw [OddsComparator.find_opportunities] at h
  cases hb : OddsComparator.process_books threshold contracts data with
  | error e => rw [hb] at h; simp at h
  | ok opps =>
    rw [hb] at h
    simp only [] at h
    injection h with h
    subst h
    exact List.sorted_insertionSort OddsComparator.edge_ge opps

/-- C6 witness: the sort invariant on the concrete one-element output of
the threshold fixture at threshold 5. -/
theorem C6_sorted_output_witness :
    ([oppC1] : List Opportunity).Sorted (fun a b => b.edge_percentage ≤ a.edge_percentage) :=
  C6_sorted_output 5 [("bk", [mC1])] [kmC1] [oppC1] (by with_unfolding_all rfl)

/- Evaluation lemmas for candidate selection and the single-match input. -/

lemma find_matching_loop_eq (ht aw : String) :
    ∀ contracts : List KalshiMarket,
      (∀ km ∈ contracts, km.title.isSome ∧ km.subtitle.isSome) →
      OddsComparator.find_matching_loop (pyLower ht) (pyLower aw) contracts =
        .ok (contracts.filter (OddsComparator.is_candidate ht aw)) := by
  intro contracts
  induction contracts with
  | nil =>
    intro _
    rw [OddsComparator.find_matching_loop]
    rfl
  | cons km rest ih =>
    intro hc
    obtain ⟨hts, hss⟩ := hc km (List.mem_cons_self km rest)
    obtain ⟨t, htv⟩ := Option.isSome_iff_exists.mp hts
    obtain ⟨s, hsv⟩ := Option.isSome_iff_exists.mp hss
    have hcand : OddsComparator.is_candidate ht aw km =
        ((pyIn (pyLower ht) (pyLower t) || pyIn (pyLower ht) (pyLower s)) &&
          (pyIn (pyLower aw) (pyLower t) || pyIn (pyLower aw) (pyLower s))) := by
      rw [OddsComparator.is_candidate, htv, hsv]
    rw [OddsComparator.find_matching_loop, htv, hsv]
    simp only [getKey]
    rw [ih (fun k hk => hc k (List.mem_cons_of_mem _ hk))]
    simp only []
    rw [List.filter_cons, hcand]
    cases hb : ((pyIn (pyLower ht) (pyLower t) || pyIn (pyLower ht) (pyLower s)) &&
        (pyIn (pyLower aw) (pyLower t) || pyIn (pyLower aw) (pyLower s))) <;>
      simp [hb]

lemma find_matching_eq_filter (m : Match) (ht aw : String)
    (contracts : List KalshiMarket)
    (h1 : m.home_team = some ht) (h2 : m.away_team = some aw)
    (hc : ∀ km ∈ contracts, km.title.isSome ∧ km.subtitle.isSome) :
    OddsComparator.find_matching_kalshi_markets m contracts =
      .ok (contracts.filter (OddsComparator.is_candidate ht aw)) := by
  rw [OddsComparator.find_matching_kalshi_markets, h1, h2]
  simp only [getKey]
  exact find_matching_loop_eq ht aw contracts hc

lemma process_books_single_ok (θ : ℚ) (book : String) (m : Match)
    (contracts : List KalshiMarket) (l : List Opportunity)
    (h : OddsComparator.process_match θ book contracts m = .ok l) :
    OddsComparator.process_books θ contracts [(book, [m])] = .ok l := by
  rw [OddsComparator.process_books]
  simp [exceptConcat, h]

lemma process_books_single_err (θ : ℚ) (book : String) (m : Match)
    (contracts : List KalshiMarket) (e : PyErr)
    (h : OddsComparator.process_match θ book contracts m = .error e) :
    OddsComparator.process_books θ contracts [(book, [m])] = .error e := by
  rw [OddsComparator.process_books]
  simp [exceptConcat, h]

lemma find_opportunities_of_books_ok (θ : ℚ) (data : List (String × List Match))
    (contracts : List KalshiMarket) (opps : List Opportunity)
    (h : OddsComparator.process_books θ contracts data = .ok opps) :
    OddsComparator.find_opportunities θ data contracts =
      .ok (opps.insertionSort OddsComparator.edge_ge) := by
  rw [OddsComparator.find_opportunities, h]

lemma find_opportunities_of_books_err (θ : ℚ) (data : List (String × List Match))
    (contracts : List KalshiMarket) (e : PyErr)
    (h : OddsComparator.process_books θ contracts data = .error e) :
    OddsComparator.find_opportunities θ data contracts = .error e := by
  rw [OddsComparator.find_opportunities, h]

lemma process_match_no_candidates (θ : ℚ) (book ht aw : String) (m : Match)
    (contracts : List KalshiMarket)
    (h1 : m.home_team = some ht) (h2 : m.away_team = some aw)
    (hfm : OddsComparator.find_matching_kalshi_markets m contracts = .ok []) :
    OddsComparator.process_match θ book contracts m = .ok [] := by
  rw [OddsComparator.process_match, hfm]
  simp [getKey, h1, h2]

/-- C7 confirmed: a contract is selected for a match exactly when both team
names appear case-insensitively in its title or subtitle (the returned
candidate list is the filter by that condition), and a match with no
candidates contributes no opportunities and no error. -/
theorem C7_candidate_selection (θ : ℚ) (book ht aw : String) (m : Match)
    (contracts : List KalshiMarket)
    (h1 : m.home_team = some ht) (h2 : m.away_team = some aw)
    (hc : ∀ km ∈ contracts, km.title.isSome ∧ km.subtitle.isSome) :
    OddsComparator.find_matching_kalshi_markets m contracts =
      .ok (contracts.filter (OddsComparator.is_candidate ht aw)) ∧
      (contracts.filter (OddsComparator.is_candidate ht aw) = [] →
        OddsComparator.find_opportunities θ [(book, [m])] contracts = .ok []) := by
  have hfm := find_matching_eq_filter m ht aw contracts h1 h2 hc
  refine ⟨hfm, fun hemp => ?_⟩
  have hpm : OddsComparator.process_match θ book contracts m = .ok [] :=
    process_match_no_candidates θ book ht aw m contracts h1 h2 (hemp ▸ hfm)
  rw [find_opportunities_of_books_ok θ _ contracts []
    (process_books_single_ok θ book m contracts [] hpm)]
  rfl

/-- C7 witness: the concrete match `mC7` against the single non-overlapping
contract `kmC4z`: the filter is empty, the candidate list is empty, and the
whole run returns an empty opportunity list without error. -/
theorem C7_candidate_selection_witness :
    OddsComparator.find_matching_kalshi_markets mC7 [kmC4z] =
      .ok ([kmC4z].filter (OddsComparator.is_candidate "team a" "team b")) ∧
      ([kmC4z].filter (OddsComparator.is_candidate "team a" "team b") = [] →
        OddsComparator.find_opportunities 5 [("bk", [mC7])] [kmC4z] = .ok []) :=
  C7_candidate_selection 5 "bk" "team a" "team b" mC7 [kmC4z] rfl rfl
    (by
      intro km hk
      rcases List.mem_singleton.mp hk with rfl
      exact ⟨rfl, rfl⟩)

/-- C4 counterexample: a match lacking `markets` with a matching contract
makes `find_opportunities` raise `KeyError('markets')` instead of skipping
the item. -/
theorem C4_missing_markets_counterexample :
    OddsComparator.find_opportunities 5 [("bk", [mC4])] [kmC4] =
      .error (.keyError "markets") := by
  with_unfolding_all rfl

/-- C4 amended: the matcher is not total over missing substructure: a match
lacking `markets` raises `KeyError('markets')` as soon as some contract
matches both team names; only when no contract matches is the match skipped
with zero contribution and no error. -/
theorem C4_missing_markets_amended (θ : ℚ) (book ht aw : String) (m : Match)
    (contracts : List KalshiMarket)
    (h1 : m.home_team = some ht) (h2 : m.away_team = some aw)
    (h3 : m.markets = none)
    (hc : ∀ km ∈ contracts, km.title.isSome ∧ km.subtitle.isSome) :
    OddsComparator.find_opportunities θ [(book, [m])] contracts =
      (if contracts.filter (OddsComparator.is_candidate ht aw) = [] then .ok []
        else .error (.keyError "markets")) := by
  have hfm := find_matching_eq_filter m ht aw contracts h1 h2 hc
  by_cases hemp : contracts.filter (OddsComparator.is_candidate ht aw) = []
  · rw [if_pos hemp]
    have hpm : OddsComparator.process_match θ book contracts m = .ok [] :=
      process_match_no_candidates θ book ht aw m contracts h1 h2 (hemp ▸ hfm)
    rw [find_opportunities_of_books_ok θ _ contracts []
      (process_books_single_ok θ book m contracts [] hpm)]
    rfl
  · rw [if_neg hemp]
    have hpm : OddsComparator.process_match θ book contracts m =
        .error (.keyError "markets") := by
      rw [OddsComparator.process_match, hfm]
      simp only []
      rw [if_neg (by simpa [List.isEmpty_iff] using hemp), h3]
      rfl
    exact find_opportunities_of_books_err θ _ contracts _
      (process_books_single_err θ book m contracts _ hpm)

/-- C4 witness: the amended dichotomy at a concrete no-candidate input,
where the missing `markets` field is never touched and the result is a
clean empty list. -/
theorem C4_missing_markets_witness :
    OddsComparator.find_opportunities 5 [("bk", [mC4])] [kmC4z] =
      (if [kmC4z].filter (OddsComparator.is_candidate "team a" "team b") = [] then
        (.ok [] : Except PyErr (List Opportunity))
        else .error (.keyError "markets")) :=
  C4_missing_markets_amended 5 "bk" "team a" "team b" mC4 [kmC4z] rfl rfl rfl
    (by
      intro km hk
      rcases List.mem_singleton.mp hk with rfl
      exact ⟨rfl, rfl⟩)

/-- C3 counterexample: on the spec's own concrete scenario the matcher
emits no opportunity at all: the subtitle "Team A to win by 2+ goals"
contains neither the magnitude string "1.5" nor, for the home side's
negative spread, any of the indicators "-", "minus", "less than". -/
theorem C3_concrete_scenario_counterexample :
    OddsComparator.find_opportunities 5 [("test_sportsbook", [mC3])] [kmC3] = .ok [] := by
  with_unfolding_all rfl

/-- C3 amended: the contract passes candidate selection, but both spread
sides fail `_is_matching_spread_market`, so the scenario yields an empty
opportunity list rather than one home-side opportunity with edge 7.38. -/
theorem C3_concrete_scenario_amended :
    OddsComparator.find_matching_kalshi_markets mC3 [kmC3] = .ok [kmC3] ∧
      OddsComparator.is_matching_spread_market kmC3 "Team A" (-(3 : ℚ) / 2) = .ok false ∧
      OddsComparator.is_matching_spread_market kmC3 "Team B" ((3 : ℚ) / 2) = .ok false ∧
      OddsComparator.find_opportunities 5 [("test_sportsbook", [mC3])] [kmC3] = .ok [] := by
  refine ⟨?_, ?_, ?_, ?_⟩ <;> with_unfolding_all rfl

end KalshiOdds
